import Mathlib

/-!
Shallow embedding of the wallpaper backend (`backend/server.py`).

Strings are modelled as `List Char` (`Str`).  Python's `str.lower()` is
modelled by ASCII lowercasing (`Char.toLower`), which agrees with Python on
every input relevant to the all-ASCII keyword table.  Python's substring
operator `in` is `strIn`.  `hashlib.md5(prompt.encode())` is modelled by a
full MD5 implementation (RFC 1321) over the UTF-8 bytes of the prompt,
`int(hexdigest()[:8], 16)` by `md5First8`.
-/

abbrev Str := List Char

def strLower (s : Str) : Str := s.map Char.toLower

/-- Python's substring test `needle in hay` (contiguous occurrence). -/
def strIn (needle : Str) : Str → Bool
  | [] => needle.isEmpty
  | c :: rest => needle.isPrefixOf (c :: rest) || strIn needle rest

/-- UTF-8 encoding of one scalar value, as `str.encode()` produces. -/
def utf8Char (c : Char) : List Nat :=
  let n := c.toNat
  if n < 128 then [n]
  else if n < 2048 then [192 + n / 64, 128 + n % 64]
  else if n < 65536 then [224 + n / 4096, 128 + n / 64 % 64, 128 + n % 64]
  else [240 + n / 262144, 128 + n / 4096 % 64, 128 + n / 64 % 64, 128 + n % 64]

def utf8Bytes (s : Str) : List Nat := (s.map utf8Char).flatten

/-! MD5 (RFC 1321) over a list of bytes. -/

def md5K : List Nat := [
  3614090360, 3905402710, 606105819, 3250441966, 4118548399, 1200080426, 2821735955, 4249261313,
  1770035416, 2336552879, 4294925233, 2304563134, 1804603682, 4254626195, 2792965006, 1236535329,
  4129170786, 3225465664, 643717713, 3921069994, 3593408605, 38016083, 3634488961, 3889429448,
  568446438, 3275163606, 4107603335, 1163531501, 2850285829, 4243563512, 1735328473, 2368359562,
  4294588738, 2272392833, 1839030562, 4259657740, 2763975236, 1272893353, 4139469664, 3200236656,
  681279174, 3936430074, 3572445317, 76029189, 3654602809, 3873151461, 530742520, 3299628645,
  4096336452, 1126891415, 2878612391, 4237533241, 1700485571, 2399980690, 4293915773, 2240044497,
  1873313359, 4264355552, 2734768916, 1309151649, 4149444226, 3174756917, 718787259, 3951481745]

def md5S : List Nat := [
  7, 12, 17, 22, 7, 12, 17, 22, 7, 12, 17, 22, 7, 12, 17, 22,
  5, 9, 14, 20, 5, 9, 14, 20, 5, 9, 14, 20, 5, 9, 14, 20,
  4, 11, 16, 23, 4, 11, 16, 23, 4, 11, 16, 23, 4, 11, 16, 23,
  6, 10, 15, 21, 6, 10, 15, 21, 6, 10, 15, 21, 6, 10, 15, 21]

def rotl32 (x n : Nat) : Nat := (x * 2 ^ n + x / 2 ^ (32 - n)) % 4294967296

/-- Pad the message: append 0x80, zeros to 56 mod 64, then the 64-bit
little-endian bit length. -/
def md5Pad (msg : List Nat) : List Nat :=
  let len := msg.length
  let zeros := (120 - (len + 1) % 64) % 64
  msg ++ [128] ++ List.replicate zeros 0 ++
    (List.range 8).map (fun i => len * 8 % 18446744073709551616 / 256 ^ i % 256)

/-- Little-endian 32-bit word `j` of a 64-byte chunk. -/
def leWord (chunk : List Nat) (j : Nat) : Nat :=
  chunk.getD (4 * j) 0 + chunk.getD (4 * j + 1) 0 * 256 +
    chunk.getD (4 * j + 2) 0 * 65536 + chunk.getD (4 * j + 3) 0 * 16777216

def md5Round (M : List Nat) (st : Nat × Nat × Nat × Nat) (i : Nat) : Nat × Nat × Nat × Nat :=
  let a := st.1; let b := st.2.1; let c := st.2.2.1; let d := st.2.2.2
  let fg : Nat × Nat :=
    if i < 16 then ((b &&& c) ||| ((4294967295 - b) &&& d), i)
    else if i < 32 then ((d &&& b) ||| ((4294967295 - d) &&& c), (5 * i + 1) % 16)
    else if i < 48 then (b ^^^ c ^^^ d, (3 * i + 5) % 16)
    else (c ^^^ (b ||| (4294967295 - d)), 7 * i % 16)
  let f := (fg.1 + a + md5K.getD i 0 + M.getD fg.2 0) % 4294967296
  (d, (b + rotl32 f (md5S.getD i 0)) % 4294967296, b, c)

def md5Block (chunk : List Nat) (h : Nat × Nat × Nat × Nat) : Nat × Nat × Nat × Nat :=
  let M := (List.range 16).map (leWord chunk)
  let r := (List.range 64).foldl (md5Round M) h
  ((h.1 + r.1) % 4294967296, (h.2.1 + r.2.1) % 4294967296,
   (h.2.2.1 + r.2.2.1) % 4294967296, (h.2.2.2 + r.2.2.2) % 4294967296)

def md5Core (msg : List Nat) : Nat × Nat × Nat × Nat :=
  let padded := md5Pad msg
  (List.range (padded.length / 64)).foldl
    (fun h i => md5Block ((padded.drop (64 * i)).take 64) h)
    (1732584193, 4023233417, 2562383102, 271733878)

/-- `int(hashlib.md5(bytes).hexdigest()[:8], 16)`: the first four digest
bytes (the little-endian bytes of the final A word) read as a big-endian
integer. -/
def md5First8 (msg : List Nat) : Nat :=
  let a := (md5Core msg).1
  a % 256 * 16777216 + a / 256 % 256 * 65536 + a / 65536 % 256 * 256 + a / 16777216

/-! The static image table of `generate_image_mcp` (server.py lines 228-242),
in declaration order. -/

def sample_images : List (Str × Str) := [
  ("sunset".toList,
   "https://images.unsplash.com/photo-1506905925346-21bda4d32df4?w=400&h=711&fit=crop&crop=center".toList),
  ("mountains".toList,
   "https://images.unsplash.com/photo-1464822759844-d150bb1e7ead?w=400&h=711&fit=crop&crop=center".toList),
  ("abstract".toList,
   "https://images.unsplash.com/photo-1558618666-fcd25d1cd2f6?w=400&h=711&fit=crop&crop=center".toList),
  ("geometric".toList,
   "https://images.unsplash.com/photo-1520637836862-4d197d17c13a?w=400&h=711&fit=crop&crop=center".toList),
  ("nature".toList,
   "https://images.unsplash.com/photo-1441974231531-c6227db76b6e?w=400&h=711&fit=crop&crop=center".toList),
  ("minimal".toList,
   "https://images.unsplash.com/photo-1553356084-58ef4a67b2a7?w=400&h=711&fit=crop&crop=center".toList),
  ("gradient".toList,
   "https://images.unsplash.com/photo-1509114397022-ed747cca3f65?w=400&h=711&fit=crop&crop=center".toList),
  ("neon".toList,
   "https://images.unsplash.com/photo-1518709268805-4e9042af2176?w=400&h=711&fit=crop&crop=center".toList),
  ("artistic".toList,
   "https://images.unsplash.com/photo-1549490349-8643362247b5?w=400&h=711&fit=crop&crop=center".toList),
  ("space".toList,
   "https://images.unsplash.com/photo-1446776877081-d282a0f896e2?w=400&h=711&fit=crop&crop=center".toList)]

def default_image : Str :=
  "https://images.unsplash.com/photo-1542831371-29b0f74f9713?w=400&h=711&fit=crop&crop=center".toList

/-- `list(sample_images.values())`. -/
def image_list : List Str := sample_images.map Prod.snd

/-- Metadata dict of a successful `generate_image_mcp` result.
`generationTime` models `datetime.utcnow().isoformat()` via an abstract
clock value; `aspect` is the source's `aspect_ratio` argument. -/
structure ImgMeta where
  prompt : Str
  aspect : Str
  quality : Str
  format : Str
  generationTime : Nat
  source : Str
  deriving DecidableEq, Repr

/-- Result dict of `generate_image_mcp`: `{"success": True, "url": ...,
"metadata": ...}` or `{"success": False, "error": ...}`. -/
inductive ImageResult where
  | ok (url : Str) (meta : ImgMeta)
  | err (msg : Str)
  deriving DecidableEq, Repr

def ImageResult.isOk : ImageResult → Bool
  | .ok _ _ => true
  | .err _ => false

def ImageResult.url : ImageResult → Str
  | .ok u _ => u
  | .err _ => []

/-- The first-match keyword scan: `for keyword, image_url in
sample_images.items(): if keyword in prompt_lower: ...; break`. -/
def scanKeywords : List (Str × Str) → Str → Option Str
  | [], _ => none
  | (kw, url) :: rest, pl => if strIn kw pl then some url else scanKeywords rest pl

/-- `generate_image_mcp` (server.py lines 221-277).  The body is pure (no
operation in it can raise), so the `except` branch is unreachable and the
embedding always returns `ok`.  `now` is the abstract clock read by
`datetime.utcnow()`. -/
def generate_image_mcp (prompt aspect quality format : Str) (now : Nat) : ImageResult :=
  let prompt_lower := strLower prompt
  let selected :=
    match scanKeywords sample_images prompt_lower with
    | some url => url
    | none => default_image
  let selected :=
    if selected = default_image then
      let prompt_hash := md5First8 (utf8Bytes prompt)
      image_list.getD (prompt_hash % image_list.length) []
    else selected
  ImageResult.ok selected ⟨prompt, aspect, quality, format, now, "sample_images".toList⟩

/-! Wallpaper endpoint (server.py lines 280-338). -/

structure WallpaperRequest where
  prompt : Str
  style : Str
  aspect : Str
  quality : Str
  deriving DecidableEq, Repr

/-- `WallpaperResponse` pydantic model (server.py lines 88-95); `meta` is
the `metadata` field (`none` models the empty default dict). -/
structure WallpaperResponse where
  success : Bool
  wallpaper_url : Str
  prompt : Str
  style : Str
  aspect : Str
  meta : Option ImgMeta
  error : Option Str
  deriving DecidableEq, Repr

/-- Document inserted into the `wallpapers` collection (server.py lines
297-307); `enhanced` is `enhanced_prompt`, `mongoId` is the
storage-internal `_id` the store may add (absent at insert time). -/
structure WallpaperDoc where
  id : Str
  prompt : Str
  enhanced : Str
  style : Str
  aspect : Str
  quality : Str
  wallpaper_url : Str
  timestamp : Nat
  meta : Option ImgMeta
  mongoId : Option Str
  deriving DecidableEq, Repr

/-- The f-string at server.py line 285. -/
def enhanced_prompt (req : WallpaperRequest) : Str :=
  req.prompt ++ ", ".toList ++ req.style ++ " style, phone wallpaper, ".toList ++
    req.aspect ++ " aspect ratio, high quality, detailed, vibrant colors".toList

/-- The argument tuple of the `generate_image_mcp` call at server.py lines
288-293. -/
structure ClassifierCall where
  prompt : Str
  aspect : Str
  quality : Str
  format : Str
  deriving DecidableEq, Repr

def classifier_call (req : WallpaperRequest) : ClassifierCall :=
  { prompt := enhanced_prompt req
    aspect := req.aspect
    quality := if req.quality = "high".toList then "1".toList else "0.25".toList
    format := "webp".toList }

/-- Body of `generate_wallpaper` after the awaited classifier call, with
the classifier's result as an argument.  `insertFault = some m` models
`db.wallpapers.insert_one` raising an exception with text `m` (caught by
the handler's `except`, no document persisted); `newId` models
`str(uuid.uuid4())` and `now` the clock. -/
def generate_wallpaper_core (req : WallpaperRequest) (newId : Str) (now : Nat)
    (result : ImageResult) (insertFault : Option Str) (store : List WallpaperDoc) :
    List WallpaperDoc × WallpaperResponse :=
  match result with
  | .ok url meta =>
    match insertFault with
    | none =>
      (store ++ [⟨newId, req.prompt, enhanced_prompt req, req.style, req.aspect, req.quality,
                  url, now, some meta, none⟩],
       ⟨true, url, req.prompt, req.style, req.aspect, some meta, none⟩)
    | some m => (store, ⟨false, [], req.prompt, req.style, req.aspect, none, some m⟩)
  | .err msg => (store, ⟨false, [], req.prompt, req.style, req.aspect, none, some msg⟩)

/-- `generate_wallpaper` (server.py lines 280-338): build the enhanced
prompt, call the classifier with it, persist on success. -/
def generate_wallpaper (req : WallpaperRequest) (newId : Str) (now : Nat)
    (insertFault : Option Str) (store : List WallpaperDoc) :
    List WallpaperDoc × WallpaperResponse :=
  let call := classifier_call req
  generate_wallpaper_core req newId now
    (generate_image_mcp call.prompt call.aspect call.quality call.format now)
    insertFault store

/-! History endpoint (server.py lines 341-367). -/

structure HistoryResponse where
  success : Bool
  wallpapers : List WallpaperDoc
  count : Nat
  error : Option Str
  deriving DecidableEq, Repr

/-- The sort order requested from the store:
`find().sort("timestamp", -1)` — descending by timestamp, ties in
unspecified order. -/
def histDesc (a b : WallpaperDoc) : Prop := b.timestamp ≤ a.timestamp

instance : DecidableRel histDesc := fun a b => Nat.decLe b.timestamp a.timestamp

instance : IsTotal WallpaperDoc histDesc := ⟨fun a b => Nat.le_total b.timestamp a.timestamp⟩

instance : IsTrans WallpaperDoc histDesc := ⟨fun _ _ _ hab hbc => Nat.le_trans hbc hab⟩

/-- `get_wallpaper_history` (server.py lines 341-367): the store returns
the documents sorted descending by timestamp, limited to 50; the handler
strips the storage-internal `_id` from each and reports the count. -/
def get_wallpaper_history (store : List WallpaperDoc) : HistoryResponse :=
  let limited := (store.insertionSort histDesc).take 50
  let wallpapers := limited.map (fun d => { d with mongoId := none })
  ⟨true, wallpapers, wallpapers.length, none⟩

/-! Chat endpoint (server.py lines 116-155).  The external agent library is
modelled abstractly: an `Agent` carries its capability list and an
`execute` behaviour (`Except.error m` = execution raised an exception with
text `m`); construction of the two agent kinds is given by
`mkSearch`/`mkChat` oracles (`Except.error m` = the constructor raised). -/

structure AgentResult where
  success : Bool
  content : Str
  metadata : List (Str × Str)
  error : Option Str
  deriving DecidableEq, Repr

structure Agent where
  capabilities : List Str
  execute : Str → Except Str AgentResult

structure ChatRequest where
  message : Str
  agent_type : Str
  deriving DecidableEq, Repr

structure ChatState where
  searchAgent : Option Agent
  chatAgent : Option Agent

structure ChatResponse where
  success : Bool
  response : Str
  agent_type : Str
  capabilities : List Str
  metadata : List (Str × Str)
  error : Option Str
  deriving DecidableEq, Repr

/-- A Python exception inside the handler: a generic `Exception` with text,
or the `HTTPException(status, detail)` raised at server.py line 133. -/
inductive PyExc where
  | generic (msg : Str)
  | http (status : Nat) (detail : Str)
  deriving DecidableEq, Repr

/-- `str(e)`.  For starlette's `HTTPException`, `__str__` renders
`f"{status_code}: {detail}"`. -/
def PyExc.text : PyExc → Str
  | .generic m => m
  | .http s d => (Nat.repr s).toList ++ ": ".toList ++ d

/-- HTTP-level outcome of the endpoint: a FastAPI `HTTPException` escaping
the handler, or an HTTP 200 carrying a `ChatResponse`. -/
inductive ChatHTTP where
  | httpError (status : Nat) (detail : Str)
  | ok (resp : ChatResponse)
  deriving DecidableEq, Repr

/-- The lazy-init step (server.py lines 123-127).  On constructor fault the
global is left unassigned. -/
def chatInit (mkSearch mkChat : Except Str Agent) (st : ChatState) (req : ChatRequest) :
    ChatState × Option PyExc :=
  if req.agent_type = "search".toList ∧ st.searchAgent.isNone = true then
    match mkSearch with
    | .ok a => ({ st with searchAgent := some a }, none)
    | .error m => (st, some (.generic m))
  else if req.agent_type = "chat".toList ∧ st.chatAgent.isNone = true then
    match mkChat with
    | .ok a => ({ st with chatAgent := some a }, none)
    | .error m => (st, some (.generic m))
  else (st, none)

/-- Agent selection (server.py line 130). -/
def chatSelect (st : ChatState) (req : ChatRequest) : Option Agent :=
  if req.agent_type = "search".toList then st.searchAgent else st.chatAgent

/-- The `try` block of `chat_with_agent` (server.py lines 121-145), with
exceptions made explicit.  A `None` selected agent raises
`HTTPException(500, "Failed to initialize agent")` (line 133). -/
def chatTryBody (mkSearch mkChat : Except Str Agent) (st : ChatState) (req : ChatRequest) :
    ChatState × Except PyExc ChatResponse :=
  match chatInit mkSearch mkChat st req with
  | (st1, some e) => (st1, Except.error e)
  | (st1, none) =>
    match chatSelect st1 req with
    | none => (st1, Except.error (PyExc.http 500 "Failed to initialize agent".toList))
    | some a =>
      match a.execute req.message with
      | .error m => (st1, Except.error (PyExc.generic m))
      | .ok r =>
        (st1, Except.ok ⟨r.success, r.content, req.agent_type, a.capabilities, r.metadata, r.error⟩)

/-- `chat_with_agent` (server.py lines 116-155).  The `except Exception`
clause catches every exception raised in the `try` block — including the
`HTTPException` raised at line 133, since starlette's `HTTPException`
subclasses `Exception` — and converts it into an HTTP 200 `ChatResponse`
with `success=False` and `error=str(e)`. -/
def chat_with_agent (mkSearch mkChat : Except Str Agent) (st : ChatState) (req : ChatRequest) :
    ChatState × ChatHTTP :=
  match chatTryBody mkSearch mkChat st req with
  | (st1, Except.ok r) => (st1, ChatHTTP.ok r)
  | (st1, Except.error e) =>
    (st1, ChatHTTP.ok ⟨false, [], req.agent_type, [], [], some e.text⟩)

/-! Concrete fixtures used by witness and counterexample theorems. -/

def dummyAgent : Agent := ⟨[], fun _ => Except.error []⟩

def docA : WallpaperDoc :=
  ⟨"a".toList, "p".toList, "e".toList, "s".toList, "9:16".toList, "high".toList,
   "u".toList, 5, none, some "m1".toList⟩

def docB : WallpaperDoc := { docA with id := "b".toList, mongoId := some "m2".toList }

def wreqStyle : WallpaperRequest :=
  ⟨"xyz".toList, "nature".toList, "sunset".toList, "high".toList⟩

def wreqSun : WallpaperRequest :=
  ⟨"Sunset over mountains".toList, "modern".toList, "9:16".toList, "high".toList⟩

def wreqNat : WallpaperRequest :=
  ⟨"xyz".toList, "nature".toList, "9:16".toList, "high".toList⟩

def imgMetaA : ImgMeta :=
  ⟨"p".toList, "9:16".toList, "1".toList, "webp".toList, 5, "sample_images".toList⟩

def resOkA : ImageResult := ImageResult.ok "u".toList imgMetaA

def resErrA : ImageResult := ImageResult.err "bad".toList

def natureUrl : Str :=
  "https://images.unsplash.com/photo-1441974231531-c6227db76b6e?w=400&h=711&fit=crop&crop=center".toList

def sunsetUrl : Str :=
  "https://images.unsplash.com/photo-1506905925346-21bda4d32df4?w=400&h=711&fit=crop&crop=center".toList

def stEmpty : ChatState := ⟨none, none⟩

def reqSearch : ChatRequest := ⟨"hi".toList, "search".toList⟩

def reqAssistant : ChatRequest := ⟨"hello".toList, "assistant".toList⟩

/-! Helper lemmas. -/

theorem strIn_infix_iff (needle hay : Str) : strIn needle hay = true ↔ needle <:+: hay := by
  induction hay with
  | nil =>
    cases needle with
    | nil => simp [strIn, List.isEmpty]
    | cons c cs => simp [strIn, List.isEmpty]
  | cons c rest ih =>
    simp only [strIn, Bool.or_eq_true, List.isPrefixOf_iff_prefix, ih, List.infix_cons_iff]

theorem scanKeywords_first (l : List (Str × Str)) (pl : Str) :
    ∀ i (hi : i < l.length),
      (∀ kv ∈ l.take i, strIn kv.1 pl = false) →
      strIn (l.get ⟨i, hi⟩).1 pl = true →
      scanKeywords l pl = some (l.get ⟨i, hi⟩).2 := by
  induction l with
  | nil => intro i hi; exact absurd hi (by simp)
  | cons hd tl ih =>
    intro i hi hprior hmatch
    obtain ⟨kw, url⟩ := hd
    cases i with
    | zero =>
      simp only [List.get] at hmatch ⊢
      simp [scanKeywords, hmatch]
    | succ j =>
      have h0 : strIn kw pl = false := by
        have := hprior (kw, url) (by simp [List.take_succ_cons])
        exact this
      have hrest : ∀ kv ∈ tl.take j, strIn kv.1 pl = false := by
        intro kv hkv
        exact hprior kv (by simp [List.take_succ_cons, hkv])
      simp only [List.get] at hmatch ⊢
      simpa [scanKeywords, h0] using ih j (Nat.lt_of_succ_lt_succ hi) hrest hmatch

theorem scanKeywords_none (l : List (Str × Str)) (pl : Str)
    (h : ∀ kv ∈ l, strIn kv.1 pl = false) : scanKeywords l pl = none := by
  induction l with
  | nil => rfl
  | cons hd tl ih =>
    obtain ⟨kw, url⟩ := hd
    have h0 : strIn kw pl = false := h (kw, url) (by simp)
    simpa [scanKeywords, h0] using ih (fun kv hkv => h kv (by simp [hkv]))

theorem scanKeywords_mem_snd (l : List (Str × Str)) (pl : Str) (u : Str)
    (h : scanKeywords l pl = some u) : u ∈ l.map Prod.snd := by
  induction l with
  | nil => simp [scanKeywords] at h
  | cons hd tl ih =>
    obtain ⟨kw, url⟩ := hd
    by_cases hkw : strIn kw pl = true
    · simp [scanKeywords, hkw] at h
      simp [h]
    · simp [scanKeywords, hkw] at h
      simpa using Or.inr (ih h)

theorem getD_mem_of_lt {α : Type} (l : List α) (i : Nat) (d : α) (h : i < l.length) :
    l.getD i d ∈ l := by
  have he : l.getD i d = l[i] := by simp [List.getElem?_eq_getElem h]
  rw [he]
  exact List.getElem_mem h

/-- The classifier's result when entry `i` of the table is the first match
of the lower-cased prompt. -/
theorem gimcp_eq_of_first (p aspect quality format : Str) (now : Nat)
    (i : Nat) (hi : i < sample_images.length)
    (hfirst : ∀ kv ∈ sample_images.take i, strIn kv.1 (strLower p) = false)
    (hmatch : strIn (sample_images.get ⟨i, hi⟩).1 (strLower p) = true) :
    generate_image_mcp p aspect quality format now =
      ImageResult.ok (sample_images.get ⟨i, hi⟩).2
        ⟨p, aspect, quality, format, now, "sample_images".toList⟩ := by
  have hscan := scanKeywords_first sample_images (strLower p) i hi hfirst hmatch
  have hne : ¬ (sample_images[i].2 = default_image) := by
    have hall : ∀ kv ∈ sample_images, kv.2 ≠ default_image := by decide
    simpa using hall _ (List.get_mem sample_images i hi)
  simp [generate_image_mcp, hscan, hne]

/-- The classifier's result when no keyword matches: the MD5 fallback. -/
theorem gimcp_eq_of_miss (p aspect quality format : Str) (now : Nat)
    (hmiss : ∀ kv ∈ sample_images, strIn kv.1 (strLower p) = false) :
    generate_image_mcp p aspect quality format now =
      ImageResult.ok (image_list.getD (md5First8 (utf8Bytes p) % image_list.length) [])
        ⟨p, aspect, quality, format, now, "sample_images".toList⟩ := by
  have hscan := scanKeywords_none sample_images (strLower p) hmiss
  simp [generate_image_mcp, hscan]

/-- The classifier always succeeds, with a URL from the table's value
sequence, never the default URL. -/
theorem gimcp_url_mem (p aspect quality format : Str) (now : Nat) :
    (generate_image_mcp p aspect quality format now).isOk = true ∧
    (generate_image_mcp p aspect quality format now).url ∈ image_list ∧
    (generate_image_mcp p aspect quality format now).url ≠ default_image := by
  have hall : ∀ v ∈ image_list, v ≠ default_image := by decide
  cases hscan : scanKeywords sample_images (strLower p) with
  | none =>
    have hlt : md5First8 (utf8Bytes p) % image_list.length < image_list.length :=
      Nat.mod_lt _ (by decide)
    have hmem : image_list[md5First8 (utf8Bytes p) % image_list.length]?.getD [] ∈ image_list := by
      simpa using getD_mem_of_lt image_list (md5First8 (utf8Bytes p) % image_list.length) [] hlt
    refine ⟨?_, ?_, ?_⟩ <;>
      simp [generate_image_mcp, hscan, ImageResult.isOk, ImageResult.url, hmem, hall _ hmem]
  | some u =>
    have hmem : u ∈ image_list := scanKeywords_mem_snd sample_images (strLower p) u hscan
    have hne : u ≠ default_image := hall u hmem
    refine ⟨?_, ?_, ?_⟩ <;>
      simp [generate_image_mcp, hscan, ImageResult.isOk, ImageResult.url, hne, hmem]

/-! Claim theorems. -/

/-- C1: for every prompt containing at least one known keyword of the
static image table as a case-insensitive substring, `generate_image_mcp`
returns the URL associated with the first such keyword in the table's
declaration order (sunset, mountains, abstract, geometric, nature,
minimal, gradient, neon, artistic, space), regardless of any unrelated
surrounding text in the prompt. -/
theorem c1_first_keyword_in_declaration_order
    (p aspect quality format : Str) (now : Nat) (i : Nat)
    (hi : i < sample_images.length)
    (hmatch : strIn (sample_images.get ⟨i, hi⟩).1 (strLower p) = true)
    (hfirst : ∀ kv ∈ sample_images.take i, strIn kv.1 (strLower p) = false) :
    generate_image_mcp p aspect quality format now =
      ImageResult.ok (sample_images.get ⟨i, hi⟩).2
        ⟨p, aspect, quality, format, now, "sample_images".toList⟩ :=
  gimcp_eq_of_first p aspect quality format now i hi hfirst hmatch

/-- Witness for C1: "Misty MOUNTAINS at dawn" matches the second table
entry ("mountains") and no earlier one, and is classified to its URL. -/
theorem c1_first_keyword_in_declaration_order_witness :
    generate_image_mcp "Misty MOUNTAINS at dawn".toList "9:16".toList "1".toList
        "webp".toList 7 =
      ImageResult.ok
        "https://images.unsplash.com/photo-1464822759844-d150bb1e7ead?w=400&h=711&fit=crop&crop=center".toList
        ⟨"Misty MOUNTAINS at dawn".toList, "9:16".toList, "1".toList, "webp".toList, 7,
         "sample_images".toList⟩ :=
  c1_first_keyword_in_declaration_order "Misty MOUNTAINS at dawn".toList "9:16".toList
    "1".toList "webp".toList 7 1 (by decide) (by decide) (by decide)

/-- C2: for every prompt containing no known keyword as a case-insensitive
substring, `generate_image_mcp` returns the URL at index `H mod 10` of the
table's value sequence, where `H` is the first 8 hex digits of the MD5
digest of the original-case prompt read as an integer; the selection
depends only on the prompt (same prompt, same URL on every call). -/
theorem c2_md5_fallback_deterministic
    (p aspect quality format : Str) (now : Nat)
    (hmiss : ∀ kv ∈ sample_images, strIn kv.1 (strLower p) = false) :
    generate_image_mcp p aspect quality format now =
      ImageResult.ok (image_list.getD (md5First8 (utf8Bytes p) % image_list.length) [])
        ⟨p, aspect, quality, format, now, "sample_images".toList⟩ ∧
    image_list.length = 10 ∧
    ∀ aspect2 quality2 format2 now2,
      (generate_image_mcp p aspect2 quality2 format2 now2).url =
        (generate_image_mcp p aspect quality format now).url := by
  refine ⟨gimcp_eq_of_miss p aspect quality format now hmiss, by decide, ?_⟩
  intro aspect2 quality2 format2 now2
  rw [gimcp_eq_of_miss p aspect quality format now hmiss,
    gimcp_eq_of_miss p aspect2 quality2 format2 now2 hmiss]
  rfl

set_option maxRecDepth 16384 in
/-- Witness for C2: "xyz123 completely unrelated text" contains no
keyword; its MD5 head is 3922959278, 3922959278 mod 10 = 8, selecting the
ninth table URL ("artistic"). -/
theorem c2_md5_fallback_deterministic_witness :
    generate_image_mcp "xyz123 completely unrelated text".toList "9:16".toList "1".toList
        "webp".toList 3 =
      ImageResult.ok
        "https://images.unsplash.com/photo-1549490349-8643362247b5?w=400&h=711&fit=crop&crop=center".toList
        ⟨"xyz123 completely unrelated text".toList, "9:16".toList, "1".toList, "webp".toList,
         3, "sample_images".toList⟩ ∧
    md5First8 (utf8Bytes "xyz123 completely unrelated text".toList) = 3922959278 :=
  ⟨(c2_md5_fallback_deterministic "xyz123 completely unrelated text".toList "9:16".toList
      "1".toList "webp".toList 3 (by decide)).1.trans (by decide),
   by decide⟩

/-- C9: every classifier result is a success whose URL is one of the ten
URLs of the table's value sequence; the separately declared default URL is
never the selection. -/
theorem c9_default_url_never_selected (p aspect quality format : Str) (now : Nat) :
    (generate_image_mcp p aspect quality format now).isOk = true ∧
    (generate_image_mcp p aspect quality format now).url ∈ image_list ∧
    image_list.length = 10 ∧
    (generate_image_mcp p aspect quality format now).url ≠ default_image := by
  obtain ⟨h1, h2, h3⟩ := gimcp_url_mem p aspect quality format now
  exact ⟨h1, h2, by decide, h3⟩

/-- C7: `generate_wallpaper` invokes the classifier with exactly the
enhanced prompt `"{prompt}, {style} style, phone wallpaper, {aspect_ratio}
aspect ratio, high quality, detailed, vibrant colors"`, quality token "1"
when the request quality is "high" and "0.25" otherwise, and output format
fixed to "webp". -/
theorem c7_classifier_invocation (req : WallpaperRequest) (newId : Str) (now : Nat)
    (fault : Option Str) (store : List WallpaperDoc) :
    (classifier_call req).prompt =
      req.prompt ++ ", ".toList ++ req.style ++ " style, phone wallpaper, ".toList ++
        req.aspect ++ " aspect ratio, high quality, detailed, vibrant colors".toList ∧
    (classifier_call req).quality =
      (if req.quality = "high".toList then "1".toList else "0.25".toList) ∧
    (classifier_call req).format = "webp".toList ∧
    generate_wallpaper req newId now fault store =
      generate_wallpaper_core req newId now
        (generate_image_mcp (classifier_call req).prompt (classifier_call req).aspect
          (classifier_call req).quality (classifier_call req).format now)
        fault store :=
  ⟨rfl, rfl, rfl, rfl⟩

/-- C8: every response of `generate_wallpaper` carries a wallpaper URL
from the static table's value sequence, or the empty string on failure,
and every record added to the store carries a URL from that sequence. -/
theorem c8_url_always_from_table (req : WallpaperRequest) (newId : Str) (now : Nat)
    (fault : Option Str) (store : List WallpaperDoc) :
    ((generate_wallpaper req newId now fault store).2.wallpaper_url ∈ image_list ∨
      (generate_wallpaper req newId now fault store).2.wallpaper_url = []) ∧
    ((generate_wallpaper req newId now fault store).2.success = false →
      (generate_wallpaper req newId now fault store).2.wallpaper_url = []) ∧
    ∀ d ∈ (generate_wallpaper req newId now fault store).1,
      d ∈ store ∨ d.wallpaper_url ∈ image_list := by
  obtain ⟨hok, hmem, -⟩ :=
    gimcp_url_mem (classifier_call req).prompt (classifier_call req).aspect
      (classifier_call req).quality (classifier_call req).format now
  cases hres : generate_image_mcp (classifier_call req).prompt (classifier_call req).aspect
      (classifier_call req).quality (classifier_call req).format now with
  | err m => rw [hres] at hok; exact absurd hok (by simp [ImageResult.isOk])
  | ok url meta =>
    rw [hres] at hmem
    simp only [ImageResult.url] at hmem
    cases fault with
    | none =>
      refine ⟨?_, ?_, ?_⟩
      · exact Or.inl (by simp [generate_wallpaper, hres, generate_wallpaper_core, hmem])
      · intro h
        exact absurd h (by simp [generate_wallpaper, hres, generate_wallpaper_core])
      · intro d hd
        simp only [generate_wallpaper, hres, generate_wallpaper_core, List.mem_append,
          List.mem_singleton] at hd
        cases hd with
        | inl h => exact Or.inl h
        | inr h => exact Or.inr (by rw [h]; exact hmem)
    | some m =>
      refine ⟨?_, ?_, ?_⟩
      · exact Or.inr (by simp [generate_wallpaper, hres, generate_wallpaper_core])
      · intro _
        simp [generate_wallpaper, hres, generate_wallpaper_core]
      · intro d hd
        simp only [generate_wallpaper, hres, generate_wallpaper_core] at hd
        exact Or.inl hd

/-- Witness for C8: with a faulting store insert the response URL is empty
and the store keeps exactly its prior records. -/
theorem c8_url_always_from_table_witness :
    (generate_wallpaper wreqSun "id0".toList 5 (some "boom".toList) [docA]).2.wallpaper_url
        = [] ∧
    (docA ∈ [docA] ∨ docA.wallpaper_url ∈ image_list) :=
  ⟨(c8_url_always_from_table wreqSun "id0".toList 5 (some "boom".toList) [docA]).2.1
      (by decide),
   (c8_url_always_from_table wreqSun "id0".toList 5 (some "boom".toList) [docA]).2.2 docA
      (by decide)⟩

/-- C5: `generate_wallpaper` performs exactly one store insert on a
success response (the single `WallpaperRecord` built from the request and
the classifier result) and none on a failure response; every failure
response carries an empty URL and the propagated error message. -/
theorem c5_one_write_on_success_only (req : WallpaperRequest) (newId : Str) (now : Nat)
    (result : ImageResult) (fault : Option Str) (store : List WallpaperDoc) :
    ((generate_wallpaper_core req newId now result fault store).2.success = true →
      ∃ url meta, result = ImageResult.ok url meta ∧ fault = none ∧
        (generate_wallpaper_core req newId now result fault store).1 =
          store ++ [⟨newId, req.prompt, enhanced_prompt req, req.style, req.aspect,
                     req.quality, url, now, some meta, none⟩]) ∧
    ((generate_wallpaper_core req newId now result fault store).2.success = false →
      (generate_wallpaper_core req newId now result fault store).1 = store ∧
      (generate_wallpaper_core req newId now result fault store).2.wallpaper_url = [] ∧
      ((∃ m, result = ImageResult.err m ∧
          (generate_wallpaper_core req newId now result fault store).2.error = some m) ∨
       (∃ m, fault = some m ∧
          (generate_wallpaper_core req newId now result fault store).2.error = some m))) := by
  cases result with
  | ok url meta =>
    cases fault with
    | none =>
      exact ⟨fun _ => ⟨url, meta, rfl, rfl, rfl⟩,
        fun h => by simp [generate_wallpaper_core] at h⟩
    | some m =>
      exact ⟨fun h => by simp [generate_wallpaper_core] at h,
        fun _ => ⟨rfl, rfl, Or.inr ⟨m, rfl, rfl⟩⟩⟩
  | err m =>
    exact ⟨fun h => by simp [generate_wallpaper_core] at h,
      fun _ => ⟨rfl, rfl, Or.inl ⟨m, rfl, rfl⟩⟩⟩

/-- Witness for C5: one concrete success call appends exactly one record;
one concrete failure call leaves the store unchanged with an empty URL and
the propagated error. -/
theorem c5_one_write_on_success_only_witness :
    (∃ url meta, resOkA = ImageResult.ok url meta ∧ (none : Option Str) = none ∧
      (generate_wallpaper_core wreqSun "id1".toList 5 resOkA none [docA]).1 =
        [docA] ++ [⟨"id1".toList, wreqSun.prompt, enhanced_prompt wreqSun, wreqSun.style,
                    wreqSun.aspect, wreqSun.quality, url, 5, some meta, none⟩]) ∧
    ((generate_wallpaper_core wreqSun "id2".toList 5 resErrA none [docA]).1 = [docA] ∧
     (generate_wallpaper_core wreqSun "id2".toList 5 resErrA none [docA]).2.wallpaper_url
        = [] ∧
     ((∃ m, resErrA = ImageResult.err m ∧
        (generate_wallpaper_core wreqSun "id2".toList 5 resErrA none [docA]).2.error
          = some m) ∨
      (∃ m, (none : Option Str) = some m ∧
        (generate_wallpaper_core wreqSun "id2".toList 5 resErrA none [docA]).2.error
          = some m))) :=
  ⟨(c5_one_write_on_success_only wreqSun "id1".toList 5 resOkA none [docA]).1 rfl,
   (c5_one_write_on_success_only wreqSun "id2".toList 5 resErrA none [docA]).2 rfl⟩

/-- C10 counterexample: the prompt "xyz" contains no keyword and the style
"nature" is a known keyword, yet the returned URL is the "sunset" entry,
not the "nature" entry, because the aspect-ratio field "sunset" also lands
in the enhanced prompt and "sunset" precedes "nature" in declaration
order. -/
theorem c10_counterexample :
    (∀ kv ∈ sample_images, strIn kv.1 (strLower wreqStyle.prompt) = false) ∧
    ("nature".toList, natureUrl) ∈ sample_images ∧
    strLower wreqStyle.style = "nature".toList ∧
    (generate_wallpaper wreqStyle "id".toList 0 none []).2.wallpaper_url = sunsetUrl ∧
    sunsetUrl ≠ natureUrl := by decide

/-- C10 (amended): if the request's style is the `i`-th table keyword and
no earlier-declared keyword occurs in the lower-cased enhanced prompt,
then the returned wallpaper URL is that keyword's URL (the enhanced
prompt, which embeds the style text, is what is scanned). -/
theorem c10_style_keyword_drives_selection (req : WallpaperRequest) (newId : Str)
    (now : Nat) (store : List WallpaperDoc) (i : Nat) (hi : i < sample_images.length)
    (hstyle : strLower req.style = (sample_images.get ⟨i, hi⟩).1)
    (hfirst : ∀ kv ∈ sample_images.take i,
      strIn kv.1 (strLower (enhanced_prompt req)) = false) :
    (generate_wallpaper req newId now none store).2.success = true ∧
    (generate_wallpaper req newId now none store).2.wallpaper_url =
      (sample_images.get ⟨i, hi⟩).2 := by
  have hmatch : strIn (sample_images.get ⟨i, hi⟩).1 (strLower (enhanced_prompt req)) = true := by
    rw [strIn_infix_iff, ← hstyle]
    refine ⟨strLower (req.prompt ++ ", ".toList),
      strLower (" style, phone wallpaper, ".toList ++ req.aspect ++
        " aspect ratio, high quality, detailed, vibrant colors".toList), ?_⟩
    simp [strLower, enhanced_prompt, List.map_append, List.append_assoc]
  have hok : generate_image_mcp (classifier_call req).prompt (classifier_call req).aspect
      (classifier_call req).quality (classifier_call req).format now =
      ImageResult.ok (sample_images.get ⟨i, hi⟩).2
        ⟨enhanced_prompt req, req.aspect, (classifier_call req).quality, "webp".toList,
         now, "sample_images".toList⟩ :=
    gimcp_eq_of_first (enhanced_prompt req) req.aspect (classifier_call req).quality
      "webp".toList now i hi hfirst hmatch
  constructor <;> simp [generate_wallpaper, hok, generate_wallpaper_core]

/-- Witness for C10 (amended): prompt "xyz", style "nature", aspect ratio
"9:16": the result is a success carrying the "nature" URL. -/
theorem c10_style_keyword_drives_selection_witness :
    (generate_wallpaper wreqNat "id".toList 2 none []).2.success = true ∧
    (generate_wallpaper wreqNat "id".toList 2 none []).2.wallpaper_url = natureUrl := by
  obtain ⟨h1, h2⟩ := c10_style_keyword_drives_selection wreqNat "id".toList 2 [] 4
    (by decide) (by decide) (by decide)
  exact ⟨h1, h2.trans (by decide)⟩

/-- C3 (code bug): when agent selection yields no initialized agent, the
`HTTPException(500)` raised inside the `try` block is swallowed by the
handler's own `except Exception`, so the endpoint answers HTTP 200 with a
structured failure body (error "500: Failed to initialize agent") instead
of an HTTP-level 500; indeed no input at all produces an HTTP-level
error from this endpoint. -/
theorem c3_agent_none_still_http_200 :
    (chat_with_agent (Except.error "s".toList) (Except.error "c".toList)
        stEmpty reqAssistant).2 =
      ChatHTTP.ok ⟨false, [], "assistant".toList, [], [],
        some "500: Failed to initialize agent".toList⟩ ∧
    ∀ mkSearch mkChat st req, ∃ r,
      (chat_with_agent mkSearch mkChat st req).2 = ChatHTTP.ok r := by
  constructor
  · rfl
  · intro mkSearch mkChat st req
    rcases h : chatTryBody mkSearch mkChat st req with ⟨st1, e | r⟩
    · exact ⟨⟨false, [], req.agent_type, [], [], some e.text⟩, by simp [chat_with_agent, h]⟩
    · exact ⟨r, by simp [chat_with_agent, h]⟩

/-- C6: any fault in agent construction or execution is caught and turned
into an HTTP 200 response with `success:false` and the exception's text as
the (non-empty) error. -/
theorem c6_engine_faults_wrapped (mkSearch mkChat : Except Str Agent)
    (st : ChatState) (req : ChatRequest) (m : Str) (hm : m ≠ [])
    (hfault :
      (req.agent_type = "search".toList ∧ st.searchAgent = none ∧
        mkSearch = Except.error m) ∨
      (req.agent_type = "chat".toList ∧ st.chatAgent = none ∧
        mkChat = Except.error m) ∨
      (∃ st1 a, chatInit mkSearch mkChat st req = (st1, none) ∧
        chatSelect st1 req = some a ∧ a.execute req.message = Except.error m)) :
    (chat_with_agent mkSearch mkChat st req).2 =
      ChatHTTP.ok ⟨false, [], req.agent_type, [], [], some m⟩ ∧ m ≠ [] := by
  refine ⟨?_, hm⟩
  rcases hfault with ⟨hat, hnone, herr⟩ | ⟨hat, hnone, herr⟩ | ⟨st1, a, hinit, hsel, hexec⟩
  · have hinit : chatInit mkSearch mkChat st req = (st, some (PyExc.generic m)) := by
      simp [chatInit, hat, hnone, herr]
    simp [chat_with_agent, chatTryBody, hinit, PyExc.text]
  · have hne : ¬(req.agent_type = "search".toList ∧ st.searchAgent.isNone = true) := by
      rw [hat]
      rintro ⟨h, -⟩
      exact absurd h (by decide)
    have hinit : chatInit mkSearch mkChat st req = (st, some (PyExc.generic m)) := by
      simp [chatInit, hne, hat, hnone, herr]
    simp [chat_with_agent, chatTryBody, hinit, PyExc.text]
  · simp [chat_with_agent, chatTryBody, hinit, hsel, hexec, PyExc.text]

/-- Witness for C6: a faulting search-agent constructor yields HTTP 200
with the constructor's exception text as the error. -/
theorem c6_engine_faults_wrapped_witness :
    (chat_with_agent (Except.error "boom".toList) (Except.error "c".toList)
        stEmpty reqSearch).2 =
      ChatHTTP.ok ⟨false, [], "search".toList, [], [], some "boom".toList⟩ ∧
    "boom".toList ≠ [] :=
  c6_engine_faults_wrapped (Except.error "boom".toList) (Except.error "c".toList)
    stEmpty reqSearch "boom".toList (by decide) (Or.inl ⟨rfl, rfl, rfl⟩)

/-- C4 counterexample to "strictly descending": two records sharing a
creation timestamp make a strictly descending output impossible; the
endpoint returns them in non-strict descending order. -/
theorem c4_strict_order_counterexample :
    ¬ List.Pairwise (fun a b : WallpaperDoc => b.timestamp < a.timestamp)
        (get_wallpaper_history [docA, docB]).wallpapers := by
  have hw : (get_wallpaper_history [docA, docB]).wallpapers =
      [{ docA with mongoId := none }, { docB with mongoId := none }] := by decide
  intro hstrict
  rw [hw] at hstrict
  simp [List.pairwise_cons, docA, docB] at hstrict

/-- C4 (amended): for every store state the history endpoint returns
success with at most 50 records in descending (non-strict: records sharing
a timestamp may be adjacent) timestamp order, the storage-internal
identifier stripped from every record, and a count equal to the list
length; the empty store yields success, an empty list and count 0. -/
theorem c4_history_contract (store : List WallpaperDoc) :
    (get_wallpaper_history store).success = true ∧
    (get_wallpaper_history store).wallpapers.length ≤ 50 ∧
    List.Pairwise (fun a b => b.timestamp ≤ a.timestamp)
      (get_wallpaper_history store).wallpapers ∧
    (∀ d ∈ (get_wallpaper_history store).wallpapers, d.mongoId = none) ∧
    (get_wallpaper_history store).count =
      (get_wallpaper_history store).wallpapers.length ∧
    (store = [] → get_wallpaper_history store = ⟨true, [], 0, none⟩) := by
  refine ⟨rfl, ?_, ?_, ?_, rfl, ?_⟩
  · simp only [get_wallpaper_history, List.length_map, List.length_take]
    omega
  · have hsorted : List.Pairwise histDesc (store.insertionSort histDesc) :=
      List.sorted_insertionSort histDesc store
    have htake : List.Pairwise histDesc ((store.insertionSort histDesc).take 50) :=
      List.Pairwise.sublist (List.take_sublist 50 _) hsorted
    show List.Pairwise _ (((store.insertionSort histDesc).take 50).map _)
    rw [List.pairwise_map]
    exact htake
  · intro d hd
    simp only [get_wallpaper_history, List.mem_map] at hd
    obtain ⟨x, -, rfl⟩ := hd
    rfl
  · intro h
    subst h
    rfl

/-- Witness for C4 (amended): the empty store yields the empty success
response, and the record returned from a singleton store has its internal
identifier stripped. -/
theorem c4_history_contract_witness :
    get_wallpaper_history [] = ⟨true, [], 0, none⟩ ∧
    ({ docA with mongoId := none } : WallpaperDoc).mongoId = none :=
  ⟨(c4_history_contract []).2.2.2.2.2 rfl,
   (c4_history_contract [docA]).2.2.2.1 { docA with mongoId := none } (by decide)⟩
